import Mathlib

/-!
Verification development for the OM1 wallet subsystem: the action dispatcher
of the wallet connectors (src/actions/wallet/connector/coinbase.py and
solana.py), the balance-change detectors (src/inputs/plugins/wallet_coinbase.py,
wallet_solana.py) with their notification buffers, and the wallet manager
(src/actions/wallet/wallet_manager.py with providers/user_provider.py and
providers/coinbase_provider.py).

Python strings are modelled as lists of characters (`Str`); Python `float`
values are modelled as exact rationals (`Rat`), so decimal arithmetic is exact
rather than binary-approximate.  Network and clock effects are passed in
explicitly: each RPC interaction is an oracle value of type `Except`/`Option`
supplied to the function, and `time.time()` is an explicit `Nat` argument.
-/

namespace OM1

/-- Python `str` modelled as a list of characters. -/
abbrev Str := List Char

/-- Coerce a Lean string literal to the character-list model. -/
def str (s : String) : Str := s.data

/-- Models Python `s.split(sep)` for a one-character separator: splitting the
empty string yields `[""]`, and adjacent separators yield empty fields. -/
def splitOnChar (sep : Char) : Str → List Str
  | [] => [[]]
  | c :: rest =>
    let r := splitOnChar sep rest
    if c = sep then [] :: r
    else
      match r with
      | [] => [[c]]
      | h :: t => (c :: h) :: t

/-- Models Python `":".join(parts)`. -/
def joinColon (parts : List Str) : Str := (parts.intersperse [':']).flatten

/-- Models Python `str.lower()` (ASCII case folding, which is all the
dispatcher's verbs need). -/
def lowerStr (s : Str) : Str := s.map Char.toLower

/-- Models Python `str.strip()`: drop leading and trailing whitespace. -/
def trimStr (s : Str) : Str :=
  ((s.dropWhile Char.isWhitespace).reverse.dropWhile Char.isWhitespace).reverse

/-- Python truthiness of an optional string: `None` and the empty string are
falsy (`if not x:`). -/
def optStrFalsy : Option Str → Bool
  | none => true
  | some s => s = []

/-- Python truthiness of a plain string field with a default:
models `(x or default)`. -/
def strOrDefault (s : Str) (deflt : Str) : Str := if s = [] then deflt else s

/-- Numeric value of a list of decimal digit characters. -/
def digitsToNat (ds : Str) : Nat := ds.foldl (fun a c => 10 * a + (c.toNat - 48)) 0

/-- Syntactic shape of a plain decimal literal: optional sign, then digit
characters with at most one point and at least one digit.  Returns
`(negative, integerDigits, fractionDigits)`, or `none` when malformed. -/
def decimalShape? (s : Str) : Option (Bool × Str × Str) :=
  let (neg, body) :=
    match s with
    | '-' :: rest => (true, rest)
    | '+' :: rest => (false, rest)
    | _ => (false, s)
  match splitOnChar '.' body with
  | [ip] => if ip ≠ [] ∧ ip.all Char.isDigit then some (neg, ip, []) else none
  | [ip, fp] =>
    if ip ++ fp ≠ [] ∧ ip.all Char.isDigit ∧ fp.all Char.isDigit then
      some (neg, ip, fp)
    else none
  | _ => none

/-- Exact rational value of a parsed decimal literal. -/
def ratOfParts (neg : Bool) (ip fp : Str) : Rat :=
  let v : Rat := (digitsToNat ip : Rat) + (digitsToNat fp : Rat) / (10 : Rat) ^ fp.length
  if neg then -v else v

/-- Models Python `float(s)` as used by the dispatcher on the transfer amount
field, restricted to plain decimal literals (optional sign, digits, optional
fraction; surrounding whitespace stripped).  Exotic accepted inputs of Python
`float` such as exponents, `inf`/`nan` and digit underscores do not occur in
the behaviours under verification; on them, as on any other unparsable text,
the model returns `none` (Python raises `ValueError`). -/
def pyFloat? (s : Str) : Option Rat :=
  match decimalShape? (trimStr s) with
  | none => none
  | some (neg, ip, fp) => some (ratOfParts neg ip fp)

/-- Round a rational to an integer, ties to even — the rounding used by
Python `format` on exact values. -/
def roundHalfEven (y : Rat) : Int :=
  let f := ⌊y⌋
  let frac := y - f
  if frac < 1 / 2 then f
  else if 1 / 2 < frac then f + 1
  else if f % 2 = 0 then f else f + 1

/-- Numeric value of Python `f"{x:.5f}"`: `x` rounded to 5 decimal places. -/
def round5 (x : Rat) : Rat := (roundHalfEven (x * 100000) : Rat) / 100000

/-- Left-pad a digit string with zeros to width `k`. -/
def padZeros (k : Nat) (s : Str) : Str := List.replicate (k - s.length) '0' ++ s

/-- Text of Python `f"{x:.5f}"`: sign, integer part, point, 5 fraction
digits. -/
def format5 (x : Rat) : Str :=
  let n := roundHalfEven (x * 100000)
  let sign : Str := if n < 0 then str "-" else []
  let m := n.natAbs
  sign ++ (toString (m / 100000)).data ++ str "." ++ padZeros 5 (toString (m % 100000)).data

/-! ## Action dispatcher (src/actions/wallet/connector/coinbase.py and solana.py) -/

/-- The `WalletInput` dataclass (src/actions/wallet/interface.py).  `amount`
is a Python float, modelled as `Rat`. -/
structure WalletInput where
  action : Str
  message : Option Str := none
  to_address : Option Str := none
  amount : Option Rat := none
  asset_id : Str := str "eth"

/-- A `WalletInput` carrying only a command string, with every optional field
unset. -/
def freshInput (cmd : Str) : WalletInput := { action := cmd }

/-- Payload of a status record's `details` field: either empty, a fixed
failure reason (the source writes the literal text `reason=<r>`), or one of
the success payloads whose values the source interpolates into an f-string. -/
inductive Details
  | noDetails
  | reason (r : Str)
  | pollSuccess (balance : Rat) (asset : Str) (address : Str)
  | signSuccess (signature : Str)
  | transferSuccess (amount : Rat) (asset : Str) (toAddr : Str) (txHash : Str)
deriving DecidableEq

/-- One `(action, status, details)` record written through `_write_status` to
the IOProvider status sink. -/
structure StatusRecord where
  action : Str
  status : Str
  details : Details
deriving DecidableEq

/-- Extract the failure reason of a status record, when it carries one. -/
def StatusRecord.reasonOf (r : StatusRecord) : Option Str :=
  match r.details with
  | .reason s => some s
  | _ => none

/-- Presence of the connector's handles set by its constructor:
`self.account` / `self.keypair` and `self.w3` / `self.client`, plus the
derived wallet address.  The source checks the two handles separately. -/
structure WalletEnv where
  hasAccount : Bool
  hasW3 : Bool
  address : Str

/-- Oracle for the chain interactions a dispatch may perform; an `Except`
failure models a raised exception carrying the exception text. -/
structure Net where
  getBalanceWei : Except Str Int
  signResult : Except Str Str
  sendTxResult : Except Str (Str × Nat)

/-- Wei-to-ether conversion `w3.from_wei(wei, 'ether')`. -/
def weiToEth (wei : Int) : Rat := (wei : Rat) / 10 ^ 18

/-- `WalletCoinbaseConnector._poll_balance`: one status record either way; a
balance query happens only when the wallet is initialised.  Returns the
records written and the number of chain calls made. -/
def pollBalanceOp (env : WalletEnv) (net : Net) (asset_id : Str) :
    List StatusRecord × Nat :=
  if ¬(env.hasAccount ∧ env.hasW3) then
    ([⟨str "poll", str "failed", .reason (str "wallet_not_initialized")⟩], 0)
  else
    match net.getBalanceWei with
    | .ok wei =>
      ([⟨str "poll", str "success", .pollSuccess (weiToEth wei) asset_id env.address⟩], 1)
    | .error e => ([⟨str "poll", str "failed", .reason e⟩], 1)

/-- `WalletCoinbaseConnector._sign_message`: signing is local (no chain
call); the source checks only `self.account`. -/
def signMessageOp (env : WalletEnv) (net : Net) : List StatusRecord × Nat :=
  if ¬env.hasAccount then
    ([⟨str "sign", str "failed", .reason (str "wallet_not_initialized")⟩], 0)
  else
    match net.signResult with
    | .ok sig => ([⟨str "sign", str "success", .signSuccess sig⟩], 0)
    | .error e => ([⟨str "sign", str "failed", .reason e⟩], 0)

/-- `WalletCoinbaseConnector._send_transaction`: an explicit placeholder that
writes one failed status directing the caller to `transfer` and performs no
chain interaction at all. -/
def sendTransactionOp : List StatusRecord × Nat :=
  ([⟨str "send", str "failed", .reason (str "use_transfer_action_instead")⟩], 0)

/-- `WalletCoinbaseConnector._transfer_assets`: when initialised, builds,
signs, broadcasts and awaits the transfer (one batched chain interaction in
the model), writing one status either way. -/
def transferAssetsOp (env : WalletEnv) (net : Net) (to_address : Str)
    (amount : Rat) (asset_id : Str) : List StatusRecord × Nat :=
  if ¬(env.hasAccount ∧ env.hasW3) then
    ([⟨str "transfer", str "failed", .reason (str "wallet_not_initialized")⟩], 0)
  else
    match net.sendTxResult with
    | .ok pr => ([⟨str "transfer", str "success",
        .transferSuccess amount asset_id to_address pr.1⟩], 1)
    | .error e => ([⟨str "transfer", str "failed", .reason e⟩], 1)

/-- Result of one dispatch: the interface object after the parsing step's
field assignments, the status records written, and how many chain calls were
made. -/
structure DispatchResult where
  finalInput : WalletInput
  statuses : List StatusRecord
  netCalls : Nat

/-- The `if len(parts) > 1` parameter-extraction block of `connect`: assign a
rejoined sign message, a transfer destination and `float`-parsed amount
(leaving the amount field untouched on `ValueError`), or a send destination,
into the interface object. -/
def extractParams (inp : WalletInput) (parts : List Str) (action : Str) : WalletInput :=
  if parts.length > 1 then
    if action = str "sign" then
      { inp with message := some (joinColon parts.tail) }
    else if action = str "transfer" ∧ parts.length ≥ 3 then
      let withAddr := { inp with to_address := some (parts.getD 1 []) }
      match pyFloat? (parts.getD 2 []) with
      | some a => { withAddr with amount := some a }
      | none => withAddr
    else if action = str "send" ∧ parts.length ≥ 2 then
      { inp with to_address := some (parts.getD 1 []) }
    else inp
  else inp

/-- The verb-routing `if/elif` chain of `connect`: validate the required
fields of the already-extracted interface object and run the matching
operation, or write the failed validation or unknown-action status. -/
def routeAction (env : WalletEnv) (net : Net) (action : Str) (inp1 : WalletInput)
    (asset_id : Str) : List StatusRecord × Nat :=
  if action = str "poll" then
    pollBalanceOp env net asset_id
  else if action = str "sign" then
    if optStrFalsy inp1.message then
      ([⟨str "sign", str "failed", .reason (str "missing_message")⟩], 0)
    else signMessageOp env net
  else if action = str "send" then
    if optStrFalsy inp1.to_address then
      ([⟨str "send", str "failed", .reason (str "missing_to_address")⟩], 0)
    else sendTransactionOp
  else if action = str "transfer" then
    if optStrFalsy inp1.to_address ∨ inp1.amount = none then
      ([⟨str "transfer", str "failed", .reason (str "missing_parameters")⟩], 0)
    else
      transferAssetsOp env net (inp1.to_address.getD []) (inp1.amount.getD 0) asset_id
  else
    ([⟨action, str "failed", .reason (str "unknown_action")⟩], 0)

/-- `WalletCoinbaseConnector.connect` / `WalletSolanaConnector.connect`
(lines 230-290 resp. 241-301): strip and colon-split the command, lowercase
the verb, extract parameters into the interface object (rejoining a sign
message, parsing a transfer amount with `float` and leaving the field
untouched on `ValueError`), then validate and route.  The two connectors
differ only in the default asset id ("eth" vs "sol") and in the chain backing
the operations, which `Net` abstracts. -/
def connectDispatch (defaultAsset : Str) (env : WalletEnv) (net : Net)
    (inp : WalletInput) : DispatchResult :=
  let action_str := trimStr inp.action
  let parts := splitOnChar ':' action_str
  let action := lowerStr (parts.headD [])
  let inp1 := extractParams inp parts action
  let asset_id := lowerStr (trimStr (strOrDefault inp1.asset_id defaultAsset))
  ⟨inp1, (routeAction env net action inp1 asset_id).1,
    (routeAction env net action inp1 asset_id).2⟩

/-! ## Balance-change detectors and notification buffer
(src/inputs/plugins/wallet_coinbase.py, wallet_solana.py) -/

/-- Mutable balance state of the `WalletCoinbase` delta-mode detector. -/
structure EthDetector where
  ETH_balance : Rat
  ETH_balance_previous : Rat

/-- `WalletCoinbase._poll` (lines 75-105), modulo the poll-interval sleep:
`initialized` is the presence of `self.account`/`self.w3`; `fetch` is the
outcome of the `get_balance` chain query in wei (an exception leaves the state
untouched and reports a zero change).  Returns the new state and the reported
`[current_balance, balance_change]` pair. -/
def ethPollTick (initialized : Bool) (fetch : Except Str Int) (st : EthDetector) :
    EthDetector × Rat × Rat :=
  if ¬initialized then (st, st.ETH_balance, 0)
  else
    match fetch with
    | .ok wei =>
      let cur := weiToEth wei
      let balance_change := cur - st.ETH_balance_previous
      (⟨cur, cur⟩, cur, balance_change)
    | .error _ => (st, st.ETH_balance, 0)

/-- One buffered notification entry (the `Message` dataclass).  The source
stores the delta as the text `f"{change:.5f}"` and later recovers the number
with `float(...)`; the model stores the recovered numeric value
`round5 change` directly, which is exactly the value obtained by formatting
to 5 decimal places and parsing back. -/
structure Msg where
  timestamp : Nat
  value : Rat
deriving DecidableEq

/-- `_raw_to_text` (identical in WalletCoinbase and WalletSolana): a pending
message exists exactly when the reported `balance_change` (the second entry of
the raw input pair) is strictly positive. -/
def rawToTextMsg (now : Nat) (raw : Rat × Rat) : Option Msg :=
  if 0 < raw.2 then some ⟨now, round5 raw.2⟩ else none

/-- `raw_to_text`: append the pending message, if any, to the buffer. -/
def rawToTextBuffer (now : Nat) (raw : Rat × Rat) (messages : List Msg) : List Msg :=
  match rawToTextMsg now raw with
  | some m => messages ++ [m]
  | none => messages

/-- The aggregate message produced by consuming a non-empty buffer. -/
structure BufferOutput where
  timestamp : Nat
  value : Rat
  text : Str

/-- `formatted_latest_buffer` (identical in WalletCoinbase and WalletSolana up
to the asset name): an empty buffer yields `none` and no other effect;
otherwise sum the buffered values, render one aggregate message stamped with
the last entry's timestamp, and clear the buffer.  `value` is the numeric
value of the rendered `f"{transaction_sum:.5f}"`. -/
def formattedLatestBuffer (assetName : Str) (messages : List Msg) :
    List Msg × Option BufferOutput :=
  match messages with
  | [] => (messages, none)
  | m0 :: rest =>
    let transaction_sum := ((m0 :: rest).map Msg.value).foldl (· + ·) 0
    let last := (m0 :: rest).getLast (List.cons_ne_nil m0 rest)
    ([], some ⟨last.timestamp, round5 transaction_sum,
      str "You just received " ++ format5 transaction_sum ++ str " " ++
        assetName ++ str "."⟩)

/-- `meta` of a fetched Solana transaction: the pre/post lamport balances of
its participants. -/
structure TxMeta where
  pre_balances : List Int
  post_balances : List Int

/-- A fetched Solana transaction: participant account keys and optional meta.
Signature and pubkey values are opaque `solders` objects compared only for
equality; the model represents them as `Nat` ids. -/
structure TxInfo where
  account_keys : List Nat
  meta : Option TxMeta

/-- Oracle for the chain state one scan-mode poll observes:
`get_signatures_for_address` (newest first, limit 10), per-signature
`get_transaction` (where `none` covers both a raised error and an absent
`value`, both of which the source skips), and the final `get_balance`. -/
structure SolChain where
  signatures : List Nat
  getTx : Nat → Option TxInfo
  balanceLamports : Int

/-- Mutable state of the `WalletSolana` scan-mode detector. -/
structure SolDetector where
  SOL_balance : Rat
  SOL_balance_previous : Rat
  last_signature : Option Nat

/-- The loop's break test `if self.last_signature and sig_info.signature ==
self.last_signature`: a stored `solders` signature object is always truthy, so
the test is just presence plus equality. -/
def sigMatchesLast (last : Option Nat) (s : Nat) : Bool :=
  last = some s

/-- Walk the fetched signatures newest-first, collecting them until the stored
cursor is seen (all of them when it never is). -/
def newSignatures (last : Option Nat) : List Nat → List Nat
  | [] => []
  | s :: rest => if sigMatchesLast last s then [] else s :: newSignatures last rest

/-- Per-transaction contribution to `balance_change` in `WalletSolana._poll`:
find the tracked account among the transaction's account keys, take
`post_balances[i] - pre_balances[i]`, and contribute the lamports-to-SOL
converted change only when it is positive.  Skipped transactions (failed
fetch, absent meta, an empty balance list — Python truthiness — account not a
participant, index out of range) contribute 0. -/
def txDelta (pubkey : Nat) (tx : Option TxInfo) : Rat :=
  match tx with
  | none => 0
  | some t =>
    match t.meta with
    | none => 0
    | some m =>
      if m.post_balances = [] ∨ m.pre_balances = [] then 0
      else
        match t.account_keys.findIdx? (fun k => k = pubkey) with
        | none => 0
        | some i =>
          match m.pre_balances[i]?, m.post_balances[i]? with
          | some pre, some post =>
            let lamports_change := post - pre
            if 0 < lamports_change then (lamports_change : Rat) / 1000000000 else 0
          | _, _ => 0

/-- The per-transaction balance delta in the claim's vocabulary:
`post_balances[i] - pre_balances[i]` at the tracked account's participant
index, or `none` when the transaction is skipped (failed fetch, absent meta,
an empty balance list, account not a participant, index out of range). -/
def rawDeltaLamports (pubkey : Nat) (tx : Option TxInfo) : Option Int :=
  match tx with
  | none => none
  | some t =>
    match t.meta with
    | none => none
    | some m =>
      if m.post_balances = [] ∨ m.pre_balances = [] then none
      else
        match t.account_keys.findIdx? (fun k => k = pubkey) with
        | none => none
        | some i =>
          match m.pre_balances[i]?, m.post_balances[i]? with
          | some pre, some post => some (post - pre)
          | _, _ => none

/-- Result of one scan-mode poll: new state, the reported
`[current_balance, balance_change]` pair, and how many `get_balance`
queries were made. -/
structure SolPollResult where
  st : SolDetector
  balance : Rat
  change : Rat
  balanceQueries : Nat

/-- `WalletSolana._poll` (lines 89-178), modulo the sleep, on a tick where the
signature fetch succeeds (a raised fetch error reports `(SOL_balance, 0)` with
no state change, as does an uninitialised wallet): collect the signatures
newer than the cursor, advance the cursor to the newest fetched signature,
accumulate the positive per-transaction deltas oldest-first, and refresh the
cached balance with a fresh `get_balance` query only when the accumulated
change is positive. -/
def solPollTick (initialized : Bool) (chain : SolChain) (pubkey : Nat)
    (st : SolDetector) : SolPollResult :=
  if ¬initialized then ⟨st, st.SOL_balance, 0, 0⟩
  else
    match chain.signatures with
    | [] => ⟨st, st.SOL_balance, 0, 0⟩
    | newest :: _ =>
      let newSigs := newSignatures st.last_signature chain.signatures
      let st1 := { st with last_signature := some newest }
      let balance_change :=
        (newSigs.reverse.map fun s => txDelta pubkey (chain.getTx s)).foldl (· + ·) 0
      if 0 < balance_change then
        let bal := (chain.balanceLamports : Rat) / 1000000000
        ⟨⟨bal, bal, some newest⟩, bal, balance_change, 1⟩
      else
        ⟨st1, st1.SOL_balance, balance_change, 0⟩

/-! ## Wallet manager (src/actions/wallet/wallet_manager.py with
providers/user_provider.py and providers/coinbase_provider.py) -/

/-- The `WalletInfo` dataclass (providers/base.py). -/
structure WalletInfo where
  address : Str
  chain_id : Int
  balance : Option Rat := none
  provider_name : Str := str "unknown"
deriving DecidableEq

/-- Observable state of the `CoinbaseProvider` robot wallet: which of its two
handles (`self.account`, `self.w3`) are set. -/
structure RobotProviderState where
  hasAccount : Bool
  hasW3 : Bool
deriving DecidableEq

/-- State owned by one `WalletManager`: its two connected flags,
`UserWalletProvider.wallet_info`, and the robot provider's handles. -/
structure WMState where
  robot_connected : Bool
  user_connected : Bool
  user_wallet_info : Option WalletInfo
  robot_provider : RobotProviderState
deriving DecidableEq

/-- The state `WalletManager.__init__` produces. -/
def WMState.init : WMState := ⟨false, false, none, ⟨false, false⟩⟩

/-- `WalletManager.connect_user_wallet` →
`UserWalletProvider.set_wallet_info`: mirror the browser-supplied wallet info
and set the flag (no chain call; an idempotent overwrite). -/
def connect_user_wallet (st : WMState) (address : Str) (chain_id : Int)
    (balance : Option Rat) : WMState :=
  { st with
    user_wallet_info := some ⟨address, chain_id, balance, str "user_browser"⟩,
    user_connected := true }

/-- `WalletManager.disconnect_user_wallet` →
`UserWalletProvider.disconnect`. -/
def disconnect_user_wallet (st : WMState) : WMState :=
  { st with user_wallet_info := none, user_connected := false }

/-- `WalletManager.connect_robot_wallet`: on success the provider holds both
handles and the flag is set; on a raised exception the flag is untouched and
the provider keeps whatever partial state the failing
`CoinbaseProvider.connect` attempt left (which of its handle assignments ran
before the raise), supplied by the oracle. -/
def connect_robot_wallet (st : WMState)
    (outcome : Except RobotProviderState WalletInfo) : WMState :=
  match outcome with
  | .ok _ => { st with robot_provider := ⟨true, true⟩, robot_connected := true }
  | .error partialState => { st with robot_provider := partialState }

/-- `WalletManager.disconnect_robot_wallet` →
`CoinbaseProvider.disconnect`. -/
def disconnect_robot_wallet (st : WMState) : WMState :=
  { st with robot_provider := ⟨false, false⟩, robot_connected := false }

/-- Success payloads echoed back by the two user-event processors. -/
inductive ProcData
  | sigData (from_address : Str) (message : Str) (signature : Str)
  | txData (from_address : Str) (to_address : Str) (amount : Rat) (tx_hash : Str)
deriving DecidableEq

/-- The dict returned by `process_user_signature` / `process_user_transaction`. -/
structure ProcResult where
  status : Str
  message : Str
  data : Option ProcData := none
deriving DecidableEq

/-- `WalletManager.process_user_signature` (lines 143-188).  The result is
`none` exactly when the source would raise `AttributeError` by reading
`self.user_wallet.wallet_info.address` with `wallet_info` absent — a state the
manager's own operations never produce (see the invariant theorem). -/
def process_user_signature (st : WMState) (message signature from_address : Str) :
    WMState × Option ProcResult :=
  if ¬st.user_connected then
    (st, some ⟨str "error", str "User wallet not connected", none⟩)
  else
    match st.user_wallet_info with
    | none => (st, none)
    | some wi =>
      if lowerStr wi.address ≠ lowerStr from_address then
        (st, some ⟨str "error",
          str "Signature address does not match connected wallet", none⟩)
      else
        (st, some ⟨str "success", str "Signature verified and processed",
          some (.sigData from_address message signature)⟩)

/-- `WalletManager.process_user_transaction` (lines 190-238): the same
provenance guard, echoing the transaction parameters. -/
def process_user_transaction (st : WMState) (from_address to_address : Str)
    (amount : Rat) (tx_hash : Str) : WMState × Option ProcResult :=
  if ¬st.user_connected then
    (st, some ⟨str "error", str "User wallet not connected", none⟩)
  else
    match st.user_wallet_info with
    | none => (st, none)
    | some wi =>
      if lowerStr wi.address ≠ lowerStr from_address then
        (st, some ⟨str "error",
          str "Transaction address does not match connected wallet", none⟩)
      else
        (st, some ⟨str "success", str "Transaction verified and processed",
          some (.txData from_address to_address amount tx_hash)⟩)

/-- One public `WalletManager` operation.  `robotSign`, `robotSend` and
`robotGetBalance` are the guarded delegations `robot_sign_message`,
`robot_send_transaction`, `robot_get_balance`: they read the connected flag
and delegate without assigning any manager or provider state. -/
inductive WMOp
  | connectRobot (outcome : Except RobotProviderState WalletInfo)
  | connectUser (address : Str) (chain_id : Int) (balance : Option Rat)
  | disconnectRobot
  | disconnectUser
  | processSignature (message signature from_address : Str)
  | processTransaction (from_address to_address : Str) (amount : Rat) (tx_hash : Str)
  | robotSign (message : Str)
  | robotSend (to_address : Str) (amount : Rat) (dataArg : Option Str)
  | robotGetBalance (address : Str)

/-- State transition of one `WalletManager` operation. -/
def WMStep (st : WMState) : WMOp → WMState
  | .connectRobot outcome => connect_robot_wallet st outcome
  | .connectUser a c b => connect_user_wallet st a c b
  | .disconnectRobot => disconnect_robot_wallet st
  | .disconnectUser => disconnect_user_wallet st
  | .processSignature m s a => (process_user_signature st m s a).1
  | .processTransaction f t am h => (process_user_transaction st f t am h).1
  | .robotSign _ => st
  | .robotSend _ _ _ => st
  | .robotGetBalance _ => st

/-- States a `WalletManager` can actually be in: some operation sequence from
the constructor's state leads there. -/
def WMReachable (st : WMState) : Prop :=
  ∃ ops : List WMOp, st = ops.foldl WMStep WMState.init

/-- The provenance-check safety invariant: a connected user role always holds
mirrored wallet info. -/
def WMInv (st : WMState) : Prop :=
  st.user_connected = true → st.user_wallet_info.isSome


/-! ## Theorems -/

/-- `process_user_signature` assigns no manager or provider state. -/
theorem process_user_signature_state (st : WMState) (m s f : Str) :
    (process_user_signature st m s f).1 = st := by
  unfold process_user_signature
  (repeat' split) <;> rfl

/-- `process_user_transaction` assigns no manager or provider state. -/
theorem process_user_transaction_state (st : WMState) (f t : Str) (am : Rat) (h : Str) :
    (process_user_transaction st f t am h).1 = st := by
  unfold process_user_transaction
  (repeat' split) <;> rfl

/-- Each single `WalletManager` operation preserves the user-info invariant. -/
theorem WMInv_step (st : WMState) (op : WMOp) (h : WMInv st) : WMInv (WMStep st op) := by
  cases op with
  | connectRobot outcome =>
    cases outcome <;>
      simp_all [WMStep, connect_robot_wallet, WMInv]
  | connectUser a c b => simp [WMStep, connect_user_wallet, WMInv]
  | disconnectRobot => simp_all [WMStep, disconnect_robot_wallet, WMInv]
  | disconnectUser => simp [WMStep, disconnect_user_wallet, WMInv]
  | processSignature m s a =>
    show WMInv (process_user_signature st m s a).1
    rw [process_user_signature_state]; exact h
  | processTransaction f t am hs =>
    show WMInv (process_user_transaction st f t am hs).1
    rw [process_user_transaction_state]; exact h
  | robotSign _ => exact h
  | robotSend _ _ _ => exact h
  | robotGetBalance _ => exact h

/-- **C9** (confirmed): whenever `is_user_connected()` is true the user
provider holds wallet info; the constructor establishes this, every
`WalletManager` operation preserves it, and hence it holds in every reachable
state — the provenance checks never dereference absent wallet info. -/
theorem claim9_user_info_invariant :
    WMInv WMState.init ∧
    (∀ (st : WMState) (op : WMOp), WMInv st → WMInv (WMStep st op)) ∧
    (∀ st : WMState, WMReachable st → WMInv st) := by
  have hinit : WMInv WMState.init := by intro h; exact absurd h (by decide)
  refine ⟨hinit, WMInv_step, ?_⟩
  rintro st ⟨ops, rfl⟩
  have : ∀ (l : List WMOp) (s0 : WMState), WMInv s0 → WMInv (l.foldl WMStep s0) := by
    intro l
    induction l with
    | nil => intro s0 h; exact h
    | cons hd tl ih => intro s0 h; exact ih _ (WMInv_step s0 hd h)
  exact this ops WMState.init hinit

/-- Witness for C9 at a concrete reachable state. -/
theorem claim9_user_info_invariant_witness :
    WMReachable (connect_user_wallet WMState.init (str "0xA") 1 none) ∧
    WMInv (connect_user_wallet WMState.init (str "0xA") 1 none) := by
  have hr : WMReachable (connect_user_wallet WMState.init (str "0xA") 1 none) :=
    ⟨[.connectUser (str "0xA") 1 none], rfl⟩
  exact ⟨hr, claim9_user_info_invariant.2.2 _ hr⟩

/-- **C10** (confirmed): `process_user_signature` and
`process_user_transaction` are pure provenance queries — in every outcome
(success or error) they leave the whole manager state, connected flags and
both providers' wallet state, unchanged. -/
theorem claim10_process_ops_pure (st : WMState) (m s f t h : Str) (am : Rat) :
    (process_user_signature st m s f).1 = st ∧
    (process_user_transaction st f t am h).1 = st :=
  ⟨process_user_signature_state st m s f, process_user_transaction_state st f t am h⟩

/-- **C5** (confirmed): under the user-info invariant, both processors return
a result; it has status `error` when the user role is not connected or the
supplied `from_address` differs case-insensitively from the mirrored address,
and otherwise has status `success` and echoes the supplied parameters back
structurally. -/
theorem claim5_process_provenance (st : WMState) (hinv : WMInv st)
    (m s f t h : Str) (am : Rat) :
    ∃ rs rt : ProcResult,
      (process_user_signature st m s f).2 = some rs ∧
      (process_user_transaction st f t am h).2 = some rt ∧
      ((st.user_connected = false ∨
          (∃ wi, st.user_wallet_info = some wi ∧ lowerStr wi.address ≠ lowerStr f)) →
        rs.status = str "error" ∧ rt.status = str "error") ∧
      (st.user_connected = true →
        ∀ wi, st.user_wallet_info = some wi → lowerStr wi.address = lowerStr f →
          rs = ⟨str "success", str "Signature verified and processed",
                some (.sigData f m s)⟩ ∧
          rt = ⟨str "success", str "Transaction verified and processed",
                some (.txData f t am h)⟩) := by
  by_cases hc : st.user_connected = true
  · obtain ⟨wi, hwi⟩ : ∃ wi, st.user_wallet_info = some wi := by
      have := hinv hc
      cases hx : st.user_wallet_info with
      | none => rw [hx] at this; exact absurd this (by decide)
      | some wi => exact ⟨wi, rfl⟩
    by_cases haddr : lowerStr wi.address = lowerStr f
    · refine ⟨⟨str "success", str "Signature verified and processed",
          some (.sigData f m s)⟩,
        ⟨str "success", str "Transaction verified and processed",
          some (.txData f t am h)⟩, ?_, ?_, ?_, ?_⟩
      · simp [process_user_signature, hc, hwi, haddr]
      · simp [process_user_transaction, hc, hwi, haddr]
      · rintro (hfalse | ⟨wi', hwi', hne⟩)
        · rw [hc] at hfalse; exact absurd hfalse (by decide)
        · rw [hwi] at hwi'; cases hwi'; exact absurd haddr hne
      · intro _ wi' hwi' _
        exact ⟨rfl, rfl⟩
    · refine ⟨⟨str "error", str "Signature address does not match connected wallet",
          none⟩,
        ⟨str "error", str "Transaction address does not match connected wallet",
          none⟩, ?_, ?_, ?_, ?_⟩
      · simp [process_user_signature, hc, hwi, haddr]
      · simp [process_user_transaction, hc, hwi, haddr]
      · intro _; exact ⟨rfl, rfl⟩
      · intro _ wi' hwi' heq
        rw [hwi] at hwi'; cases hwi'; exact absurd heq haddr
  · refine ⟨⟨str "error", str "User wallet not connected", none⟩,
      ⟨str "error", str "User wallet not connected", none⟩, ?_, ?_, ?_, ?_⟩
    · simp [process_user_signature, hc]
    · simp [process_user_transaction, hc]
    · intro _; exact ⟨rfl, rfl⟩
    · intro htrue; exact absurd htrue hc

/-- Witness for C5 at a concrete connected state with a case-insensitively
matching address. -/
theorem claim5_process_provenance_witness :
    ∃ rs rt : ProcResult,
      (process_user_signature (connect_user_wallet WMState.init (str "0xAB") 1 none)
          (str "hi") (str "sig") (str "0xab")).2 = some rs ∧
      (process_user_transaction (connect_user_wallet WMState.init (str "0xAB") 1 none)
          (str "0xab") (str "0xCD") 0 (str "txh")).2 = some rt ∧
      (((connect_user_wallet WMState.init (str "0xAB") 1 none).user_connected = false ∨
          (∃ wi, (connect_user_wallet WMState.init (str "0xAB") 1 none).user_wallet_info
              = some wi ∧ lowerStr wi.address ≠ lowerStr (str "0xab"))) →
        rs.status = str "error" ∧ rt.status = str "error") ∧
      ((connect_user_wallet WMState.init (str "0xAB") 1 none).user_connected = true →
        ∀ wi, (connect_user_wallet WMState.init (str "0xAB") 1 none).user_wallet_info
            = some wi →
          lowerStr wi.address = lowerStr (str "0xab") →
          rs = ⟨str "success", str "Signature verified and processed",
                some (.sigData (str "0xab") (str "hi") (str "sig"))⟩ ∧
          rt = ⟨str "success", str "Transaction verified and processed",
                some (.txData (str "0xab") (str "0xCD") 0 (str "txh"))⟩) :=
  claim5_process_provenance (connect_user_wallet WMState.init (str "0xAB") 1 none)
    (by intro _; decide) (str "hi") (str "sig") (str "0xab") (str "0xCD") (str "txh") 0

/-- **C3** (confirmed): a delta-mode poll that succeeds in fetching the
current balance reports exactly `current - previous`, updates the stored
previous sample to `current` unconditionally (also on a zero or negative
delta), and generates a notification message if and only if the delta is
strictly positive. -/
theorem claim3_delta_mode_poll (st : EthDetector) (wei : Int) (now : Nat) :
    (ethPollTick true (.ok wei) st).2.2 = weiToEth wei - st.ETH_balance_previous ∧
    (ethPollTick true (.ok wei) st).1.ETH_balance_previous = weiToEth wei ∧
    (ethPollTick true (.ok wei) st).1.ETH_balance = weiToEth wei ∧
    (ethPollTick true (.ok wei) st).2.1 = weiToEth wei ∧
    ((rawToTextMsg now ((ethPollTick true (.ok wei) st).2)).isSome
      ↔ 0 < (ethPollTick true (.ok wei) st).2.2) := by
  refine ⟨rfl, rfl, rfl, rfl, ?_⟩
  unfold rawToTextMsg
  split <;> simp_all

/-- `_poll_balance` writes exactly one status record on every path. -/
theorem pollBalanceOp_one_status (env : WalletEnv) (net : Net) (a : Str) :
    (pollBalanceOp env net a).1.length = 1 := by
  unfold pollBalanceOp
  (repeat' split) <;> rfl

/-- `_sign_message` writes exactly one status record on every path. -/
theorem signMessageOp_one_status (env : WalletEnv) (net : Net) :
    (signMessageOp env net).1.length = 1 := by
  unfold signMessageOp
  (repeat' split) <;> rfl

/-- `_transfer_assets` writes exactly one status record on every path. -/
theorem transferAssetsOp_one_status (env : WalletEnv) (net : Net)
    (to_address : Str) (amount : Rat) (asset_id : Str) :
    (transferAssetsOp env net to_address amount asset_id).1.length = 1 := by
  unfold transferAssetsOp
  (repeat' split) <;> rfl

/-- The routing chain writes exactly one status record on every path. -/
theorem routeAction_one_status (env : WalletEnv) (net : Net) (action : Str)
    (inp1 : WalletInput) (asset_id : Str) :
    (routeAction env net action inp1 asset_id).1.length = 1 := by
  unfold routeAction
  (repeat' split) <;>
    first
      | rfl
      | exact pollBalanceOp_one_status ..
      | exact signMessageOp_one_status ..
      | exact transferAssetsOp_one_status ..

/-- **C6** (confirmed): one dispatch through the connector's `connect` — for
any command string, including empty strings, unknown verbs and commands that
fail validation — writes exactly one status record: never zero, never more
than one. -/
theorem claim6_exactly_one_status (defaultAsset : Str) (env : WalletEnv)
    (net : Net) (inp : WalletInput) :
    (connectDispatch defaultAsset env net inp).statuses.length = 1 := by
  unfold connectDispatch
  exact routeAction_one_status ..

/-- Unfolding of `connectDispatch` into its extraction and routing steps. -/
theorem connectDispatch_eq (defaultAsset : Str) (env : WalletEnv) (net : Net)
    (inp : WalletInput) :
    connectDispatch defaultAsset env net inp =
      ⟨extractParams inp (splitOnChar ':' (trimStr inp.action))
          (lowerStr ((splitOnChar ':' (trimStr inp.action)).headD [])),
        (routeAction env net (lowerStr ((splitOnChar ':' (trimStr inp.action)).headD []))
          (extractParams inp (splitOnChar ':' (trimStr inp.action))
            (lowerStr ((splitOnChar ':' (trimStr inp.action)).headD [])))
          (lowerStr (trimStr (strOrDefault
            (extractParams inp (splitOnChar ':' (trimStr inp.action))
              (lowerStr ((splitOnChar ':' (trimStr inp.action)).headD []))).asset_id
            defaultAsset)))).1,
        (routeAction env net (lowerStr ((splitOnChar ':' (trimStr inp.action)).headD []))
          (extractParams inp (splitOnChar ':' (trimStr inp.action))
            (lowerStr ((splitOnChar ':' (trimStr inp.action)).headD [])))
          (lowerStr (trimStr (strOrDefault
            (extractParams inp (splitOnChar ':' (trimStr inp.action))
              (lowerStr ((splitOnChar ':' (trimStr inp.action)).headD []))).asset_id
            defaultAsset)))).2⟩ := rfl

/-- Routing a `send` verb: the missing-address guard, then the placeholder. -/
theorem routeAction_send (env : WalletEnv) (net : Net) (inp1 : WalletInput)
    (asset_id : Str) :
    routeAction env net (str "send") inp1 asset_id =
      if optStrFalsy inp1.to_address then
        ([⟨str "send", str "failed", .reason (str "missing_to_address")⟩], 0)
      else sendTransactionOp := by
  unfold routeAction
  rw [if_neg (by decide), if_neg (by decide), if_pos rfl]

/-- Routing a `sign` verb: the missing-message guard, then the signing
operation. -/
theorem routeAction_sign (env : WalletEnv) (net : Net) (inp1 : WalletInput)
    (asset_id : Str) :
    routeAction env net (str "sign") inp1 asset_id =
      if optStrFalsy inp1.message then
        ([⟨str "sign", str "failed", .reason (str "missing_message")⟩], 0)
      else signMessageOp env net := by
  unfold routeAction
  rw [if_neg (by decide), if_pos rfl]

/-- Routing a `transfer` verb: the missing-parameters guard, then the
transfer operation. -/
theorem routeAction_transfer (env : WalletEnv) (net : Net) (inp1 : WalletInput)
    (asset_id : Str) :
    routeAction env net (str "transfer") inp1 asset_id =
      if optStrFalsy inp1.to_address ∨ inp1.amount = none then
        ([⟨str "transfer", str "failed", .reason (str "missing_parameters")⟩], 0)
      else
        transferAssetsOp env net (inp1.to_address.getD []) (inp1.amount.getD 0)
          asset_id := by
  unfold routeAction
  rw [if_neg (by decide), if_neg (by decide), if_neg (by decide), if_pos rfl]

/-- Parameter extraction for a three-field transfer command. -/
theorem extractParams_transfer3 (inp : WalletInput) (addr amtStr : Str) :
    extractParams inp [str "transfer", addr, amtStr] (str "transfer") =
      { inp with to_address := some addr,
                 amount := (match pyFloat? amtStr with
                            | some a => some a
                            | none => inp.amount) } := by
  unfold extractParams
  rw [if_pos (by simp), if_neg (by decide), if_pos ⟨rfl, by simp⟩]
  have hg1 : [str "transfer", addr, amtStr].getD 1 [] = addr := rfl
  have hg2 : [str "transfer", addr, amtStr].getD 2 [] = amtStr := rfl
  rw [hg1, hg2]
  cases hp : pyFloat? amtStr <;> rfl

/-- **C7** counterexample: the command `"send"` (verb present, address field
absent) fails with reason `missing_to_address`, which is not the
use-transfer guidance reason the claim promises for every send command. -/
theorem claim7_counterexample :
    (connectDispatch (str "eth") ⟨true, true, []⟩ ⟨.ok 0, .ok [], .ok ([], 1)⟩
        (freshInput (str "send"))).statuses.map StatusRecord.reasonOf
      = [some (str "missing_to_address")] ∧
    str "missing_to_address" ≠ str "use_transfer_action_instead" :=
  ⟨by decide, by decide⟩

/-- **C7** (corrected): every command whose verb is `send` fails without a
single chain interaction — with the use-transfer guidance reason when a
destination address is present, and with `missing_to_address` when it is
absent or empty; no transaction is ever built, signed, or broadcast. -/
theorem claim7_send_placeholder (defaultAsset : Str) (env : WalletEnv) (net : Net)
    (inp : WalletInput)
    (hverb : lowerStr ((splitOnChar ':' (trimStr inp.action)).headD []) = str "send") :
    (connectDispatch defaultAsset env net inp).netCalls = 0 ∧
    (connectDispatch defaultAsset env net inp).statuses =
      [⟨str "send", str "failed",
        .reason
          (if optStrFalsy (connectDispatch defaultAsset env net inp).finalInput.to_address
           then str "missing_to_address"
           else str "use_transfer_action_instead")⟩] := by
  rw [connectDispatch_eq, hverb, routeAction_send]
  constructor
  · split <;> rfl
  · split <;> rfl

/-- Witness for C7 at the concrete command `"send:0xABC"`. -/
theorem claim7_send_placeholder_witness :
    (connectDispatch (str "eth") ⟨true, true, []⟩ ⟨.ok 0, .ok [], .ok ([], 1)⟩
        (freshInput (str "send:0xABC"))).netCalls = 0 ∧
    (connectDispatch (str "eth") ⟨true, true, []⟩ ⟨.ok 0, .ok [], .ok ([], 1)⟩
        (freshInput (str "send:0xABC"))).statuses =
      [⟨str "send", str "failed",
        .reason
          (if optStrFalsy (connectDispatch (str "eth") ⟨true, true, []⟩
                ⟨.ok 0, .ok [], .ok ([], 1)⟩
                (freshInput (str "send:0xABC"))).finalInput.to_address
           then str "missing_to_address"
           else str "use_transfer_action_instead")⟩] :=
  claim7_send_placeholder (str "eth") ⟨true, true, []⟩ ⟨.ok 0, .ok [], .ok ([], 1)⟩
    (freshInput (str "send:0xABC")) (by decide)

/-- **C8** (confirmed): a `sign:<rest>` command's parsed message is all
colon-separated parts after the verb rejoined with `:`, and a sign command
whose message is empty fails with `missing_message`. -/
theorem claim8_sign_message_parsing (defaultAsset : Str) (env : WalletEnv)
    (net : Net) (inp : WalletInput) (p1 : Str) (rest : List Str)
    (hsplit : splitOnChar ':' (trimStr inp.action) = p1 :: rest)
    (hverb : lowerStr p1 = str "sign") (hrest : rest ≠ []) :
    (connectDispatch defaultAsset env net inp).finalInput.message
      = some (joinColon rest) ∧
    (joinColon rest = [] →
      (connectDispatch defaultAsset env net inp).statuses
        = [⟨str "sign", str "failed", .reason (str "missing_message")⟩]) := by
  obtain ⟨r, rs, rfl⟩ : ∃ r rs, rest = r :: rs := by
    cases rest with
    | nil => exact absurd rfl hrest
    | cons r rs => exact ⟨r, rs, rfl⟩
  rw [connectDispatch_eq, hsplit]
  dsimp only [List.headD]
  rw [hverb]
  unfold extractParams
  rw [if_pos (by simp), if_pos rfl]
  dsimp only [List.tail_cons]
  rw [routeAction_sign]
  refine ⟨rfl, fun hempty => ?_⟩
  rw [if_pos (by simp [optStrFalsy, hempty])]

/-- Witness for C8 at the concrete command `"sign:hello:world"`: the colon
inside the payload is preserved. -/
theorem claim8_sign_message_parsing_witness :
    (connectDispatch (str "eth") ⟨true, true, []⟩ ⟨.ok 0, .ok [], .ok ([], 1)⟩
        (freshInput (str "sign:hello:world"))).finalInput.message
      = some (str "hello:world") := by
  have h := claim8_sign_message_parsing (str "eth") ⟨true, true, []⟩
    ⟨.ok 0, .ok [], .ok ([], 1)⟩ (freshInput (str "sign:hello:world"))
    (str "sign") [str "hello", str "world"] (by decide) (by decide) (by decide)
  rw [h.1]
  decide

/-- **C1** counterexample: the dispatcher does not require a positive amount
and does not surface an invalid-amount failure.  `"transfer:0xABC:-5"` parses
to the non-positive amount `-5`, yet the dispatch reaches execution with a
chain call and a success status; and `"transfer:0xABC:xyz"` fails with the
reason `missing_parameters`, not an invalid-amount reason. -/
theorem claim1_counterexample :
    (connectDispatch (str "eth") ⟨true, true, []⟩ ⟨.ok 0, .ok [], .ok ([], 1)⟩
        (freshInput (str "transfer:0xABC:-5"))).finalInput.amount = some (-5) ∧
    ¬ (0 : Rat) < -5 ∧
    (connectDispatch (str "eth") ⟨true, true, []⟩ ⟨.ok 0, .ok [], .ok ([], 1)⟩
        (freshInput (str "transfer:0xABC:-5"))).statuses.map StatusRecord.status
      = [str "success"] ∧
    (connectDispatch (str "eth") ⟨true, true, []⟩ ⟨.ok 0, .ok [], .ok ([], 1)⟩
        (freshInput (str "transfer:0xABC:-5"))).netCalls = 1 ∧
    (connectDispatch (str "eth") ⟨true, true, []⟩ ⟨.ok 0, .ok [], .ok ([], 1)⟩
        (freshInput (str "transfer:0xABC:xyz"))).statuses.map StatusRecord.reasonOf
      = [some (str "missing_parameters")] ∧
    str "missing_parameters" ≠ str "invalid_amount" := by
  refine ⟨?_, by norm_num, by decide, by decide, by decide, by decide⟩
  have h : (connectDispatch (str "eth") ⟨true, true, []⟩ ⟨.ok 0, .ok [], .ok ([], 1)⟩
      (freshInput (str "transfer:0xABC:-5"))).finalInput.amount
        = some (ratOfParts true (str "5") []) := rfl
  have h5 : digitsToNat (str "5") = 5 := by decide
  have h0 : digitsToNat [] = 0 := rfl
  rw [h]
  norm_num [ratOfParts, h5, h0]

/-- **C1** (corrected): for a transfer command dispatched on a fresh input,
an amount that fails to parse leaves the amount field unset so the dispatch
fails with reason `missing_parameters` (the invalid-amount condition is only
logged) and makes no chain call; a missing or empty field likewise fails with
`missing_parameters` and no chain call; and any amount that parses — of
either sign — is accepted and the dispatch proceeds to the transfer
execution. -/
theorem claim1_transfer_validation (defaultAsset : Str) (env : WalletEnv)
    (net : Net) :
    (∀ cmd addr amtStr : Str,
      splitOnChar ':' (trimStr cmd) = [str "transfer", addr, amtStr] →
      pyFloat? amtStr = none ∨ addr = [] →
      (connectDispatch defaultAsset env net (freshInput cmd)).statuses =
        [⟨str "transfer", str "failed", .reason (str "missing_parameters")⟩] ∧
      (connectDispatch defaultAsset env net (freshInput cmd)).netCalls = 0) ∧
    (∀ cmd addr : Str,
      splitOnChar ':' (trimStr cmd) = [str "transfer", addr] →
      (connectDispatch defaultAsset env net (freshInput cmd)).statuses =
        [⟨str "transfer", str "failed", .reason (str "missing_parameters")⟩] ∧
      (connectDispatch defaultAsset env net (freshInput cmd)).netCalls = 0) ∧
    (∀ (cmd addr amtStr : Str) (a : Rat),
      splitOnChar ':' (trimStr cmd) = [str "transfer", addr, amtStr] →
      pyFloat? amtStr = some a → addr ≠ [] →
      (connectDispatch defaultAsset env net (freshInput cmd)).finalInput.amount
        = some a ∧
      (connectDispatch defaultAsset env net (freshInput cmd)).statuses =
        (transferAssetsOp env net addr a (str "eth")).1) := by
  have hlow : lowerStr (str "transfer") = str "transfer" := by decide
  have hasset : ∀ d : Str, lowerStr (trimStr (strOrDefault (str "eth") d))
      = str "eth" := by
    intro d
    rw [show strOrDefault (str "eth") d = str "eth" from if_neg (by decide)]
    decide
  refine ⟨?_, ?_, ?_⟩
  · intro cmd addr amtStr hsplit hbad
    rw [connectDispatch_eq]
    have hact : (freshInput cmd).action = cmd := rfl
    rw [hact, hsplit]
    dsimp only [List.headD]
    rw [hlow, extractParams_transfer3, routeAction_transfer]
    rcases hbad with hpf | haddr
    · rw [hpf]
      dsimp only [freshInput]
      rw [if_pos (Or.inr rfl)]
      exact ⟨rfl, rfl⟩
    · subst haddr
      dsimp only [freshInput]
      rw [if_pos (Or.inl (by decide))]
      exact ⟨rfl, rfl⟩
  · intro cmd addr hsplit
    rw [connectDispatch_eq]
    have hact : (freshInput cmd).action = cmd := rfl
    rw [hact, hsplit]
    dsimp only [List.headD]
    rw [hlow]
    unfold extractParams
    rw [if_pos (by simp), if_neg (by decide),
      if_neg (by rintro ⟨-, hlen⟩; simp at hlen),
      if_neg (by rintro ⟨h, -⟩; exact absurd h (by decide))]
    rw [routeAction_transfer]
    dsimp only [freshInput, optStrFalsy]
    rw [if_pos (Or.inl rfl)]
    exact ⟨rfl, rfl⟩
  · intro cmd addr amtStr a hsplit hpf haddr
    rw [connectDispatch_eq]
    have hact : (freshInput cmd).action = cmd := rfl
    rw [hact, hsplit]
    dsimp only [List.headD]
    rw [hlow, extractParams_transfer3, hpf, routeAction_transfer]
    rw [if_neg (by simp [optStrFalsy, haddr])]
    refine ⟨rfl, ?_⟩
    rw [show (freshInput cmd).asset_id = str "eth" from rfl, hasset]
    rfl

/-- Witness for C1 at the concrete commands `"transfer:0xDEF:zz"` (unparsable
amount) and `"transfer:0xDEF"` (missing amount). -/
theorem claim1_transfer_validation_witness :
    ((connectDispatch (str "eth") ⟨true, true, []⟩ ⟨.ok 0, .ok [], .ok ([], 1)⟩
        (freshInput (str "transfer:0xDEF:zz"))).statuses =
      [⟨str "transfer", str "failed", .reason (str "missing_parameters")⟩] ∧
     (connectDispatch (str "eth") ⟨true, true, []⟩ ⟨.ok 0, .ok [], .ok ([], 1)⟩
        (freshInput (str "transfer:0xDEF:zz"))).netCalls = 0) ∧
    ((connectDispatch (str "eth") ⟨true, true, []⟩ ⟨.ok 0, .ok [], .ok ([], 1)⟩
        (freshInput (str "transfer:0xDEF"))).statuses =
      [⟨str "transfer", str "failed", .reason (str "missing_parameters")⟩] ∧
     (connectDispatch (str "eth") ⟨true, true, []⟩ ⟨.ok 0, .ok [], .ok ([], 1)⟩
        (freshInput (str "transfer:0xDEF"))).netCalls = 0) :=
  ⟨(claim1_transfer_validation (str "eth") ⟨true, true, []⟩
      ⟨.ok 0, .ok [], .ok ([], 1)⟩).1 (str "transfer:0xDEF:zz") (str "0xDEF")
      (str "zz") (by decide) (Or.inl (by decide)),
   (claim1_transfer_validation (str "eth") ⟨true, true, []⟩
      ⟨.ok 0, .ok [], .ok ([], 1)⟩).2.1 (str "transfer:0xDEF") (str "0xDEF")
      (by decide)⟩

/-- Every per-transaction contribution is non-negative: only positive
changes are counted. -/
theorem txDelta_nonneg (pk : Nat) (tx : Option TxInfo) : 0 ≤ txDelta pk tx := by
  unfold txDelta
  dsimp only
  (repeat' split) <;>
    first
      | exact le_refl 0
      | (rename_i hlt; exact div_nonneg (by exact_mod_cast hlt.le) (by norm_num))

/-- `txDelta` is exactly the positive part of the claim-side raw
per-transaction delta, converted from lamports to SOL. -/
theorem txDelta_eq_rawDelta (pk : Nat) (tx : Option TxInfo) :
    txDelta pk tx =
      (match rawDeltaLamports pk tx with
       | some d => if 0 < d then (d : Rat) / 1000000000 else 0
       | none => 0) := by
  unfold txDelta rawDeltaLamports
  (repeat' split) <;> simp_all

/-- Once the cursor equals the newest fetched signature, no signature is
collected as new. -/
theorem newSignatures_cursor_hit (s : Nat) (rest : List Nat) :
    newSignatures (some s) (s :: rest) = [] := by
  simp [newSignatures, sigMatchesLast]

/-- Characterisation of an initialised scan-mode poll tick on a non-empty
signature fetch. -/
theorem solPollTick_eq (chain : SolChain) (pk : Nat) (st : SolDetector)
    (newest : Nat) (restSigs : List Nat)
    (hsigs : chain.signatures = newest :: restSigs) :
    solPollTick true chain pk st =
      if 0 < ((newSignatures st.last_signature chain.signatures).reverse.map
          (fun s => txDelta pk (chain.getTx s))).sum then
        ⟨⟨(chain.balanceLamports : Rat) / 1000000000,
          (chain.balanceLamports : Rat) / 1000000000, some newest⟩,
         (chain.balanceLamports : Rat) / 1000000000,
         ((newSignatures st.last_signature chain.signatures).reverse.map
           (fun s => txDelta pk (chain.getTx s))).sum, 1⟩
      else
        ⟨⟨st.SOL_balance, st.SOL_balance_previous, some newest⟩,
         st.SOL_balance,
         ((newSignatures st.last_signature chain.signatures).reverse.map
           (fun s => txDelta pk (chain.getTx s))).sum, 0⟩ := by
  conv_lhs => rw [solPollTick, hsigs]
  rw [if_neg (by simp)]
  dsimp only
  rw [← hsigs, List.sum_eq_foldl]

/-- **C2** (confirmed): on every initialised scan-mode poll with a non-empty
signature fetch, the cursor advances to the newest fetched signature
regardless of outcome; the reported change is the sum, oldest-first over the
newly seen transactions, of exactly the positive per-transaction deltas
(`post_balances[i] - pre_balances[i]` at the tracked account's index,
lamports-to-SOL converted); a positive sum refreshes the cached balance with
one fresh balance query and reports the refreshed balance; otherwise the
cached balance and a zero change are reported with no extra balance query; a
transaction with `pre = [100]`, `post = [80]` contributes zero; and
re-polling with unchanged transaction history reports a zero change. -/
theorem claim2_scan_mode_poll (chain : SolChain) (pk : Nat) (st : SolDetector)
    (newest : Nat) (restSigs : List Nat)
    (hsigs : chain.signatures = newest :: restSigs) :
    (solPollTick true chain pk st).st.last_signature = some newest ∧
    (solPollTick true chain pk st).change =
      ((newSignatures st.last_signature chain.signatures).reverse.map
        (fun s => txDelta pk (chain.getTx s))).sum ∧
    (∀ tx, txDelta pk tx =
      (match rawDeltaLamports pk tx with
       | some d => if 0 < d then (d : Rat) / 1000000000 else 0
       | none => 0)) ∧
    (0 < (solPollTick true chain pk st).change →
      (solPollTick true chain pk st).balance
          = (chain.balanceLamports : Rat) / 1000000000 ∧
      (solPollTick true chain pk st).st.SOL_balance
          = (chain.balanceLamports : Rat) / 1000000000 ∧
      (solPollTick true chain pk st).st.SOL_balance_previous
          = (chain.balanceLamports : Rat) / 1000000000 ∧
      (solPollTick true chain pk st).balanceQueries = 1) ∧
    (¬ 0 < (solPollTick true chain pk st).change →
      (solPollTick true chain pk st).change = 0 ∧
      (solPollTick true chain pk st).balance = st.SOL_balance ∧
      (solPollTick true chain pk st).balanceQueries = 0) ∧
    txDelta pk (some ⟨[pk], some ⟨[100], [80]⟩⟩) = 0 ∧
    (solPollTick true chain pk (solPollTick true chain pk st).st).change = 0 := by
  have hnonneg : (0 : Rat) ≤
      ((newSignatures st.last_signature chain.signatures).reverse.map
        (fun s => txDelta pk (chain.getTx s))).sum := by
    apply List.sum_nonneg
    intro x hx
    obtain ⟨s, -, rfl⟩ := List.mem_map.mp hx
    exact txDelta_nonneg pk (chain.getTx s)
  have hfind : List.findIdx? (fun k => decide (k = pk)) [pk] = some 0 := by
    simp
  have hconc : txDelta pk (some ⟨[pk], some ⟨[100], [80]⟩⟩) = 0 := by
    unfold txDelta
    dsimp only
    rw [if_neg (by simp), hfind]
    norm_num
  have hrepoll : ∀ st' : SolDetector, st'.last_signature = some newest →
      (solPollTick true chain pk st').change = 0 := by
    intro st' hlast
    rw [solPollTick_eq chain pk st' newest restSigs hsigs, hlast, hsigs,
      newSignatures_cursor_hit]
    simp
  rw [solPollTick_eq chain pk st newest restSigs hsigs]
  by_cases hpos : 0 <
      ((newSignatures st.last_signature chain.signatures).reverse.map
        (fun s => txDelta pk (chain.getTx s))).sum
  · rw [if_pos hpos]
    exact ⟨rfl, rfl, txDelta_eq_rawDelta pk, fun _ => ⟨rfl, rfl, rfl, rfl⟩,
      fun hc => absurd hpos hc, hconc, hrepoll _ rfl⟩
  · rw [if_neg hpos]
    exact ⟨rfl, rfl, txDelta_eq_rawDelta pk,
      fun hc => absurd hc hpos,
      fun _ => ⟨le_antisymm (not_lt.mp hpos) hnonneg, rfl, rfl⟩,
      hconc, hrepoll _ rfl⟩

/-- Witness for C2 at a concrete chain with two fetched signatures and no
stored cursor. -/
theorem claim2_scan_mode_poll_witness :
    ((solPollTick true ⟨[2, 1], fun _ => none, 7⟩ 0 ⟨0, 0, none⟩).st.last_signature
        = some 2 ∧
      (solPollTick true ⟨[2, 1], fun _ => none, 7⟩ 0 ⟨0, 0, none⟩).change =
        ((newSignatures (⟨0, 0, none⟩ : SolDetector).last_signature
            (⟨[2, 1], fun _ => none, 7⟩ : SolChain).signatures).reverse.map
          (fun s => txDelta 0 ((⟨[2, 1], fun _ => none, 7⟩ : SolChain).getTx s))).sum ∧
      (∀ tx, txDelta 0 tx =
        (match rawDeltaLamports 0 tx with
         | some d => if 0 < d then (d : Rat) / 1000000000 else 0
         | none => 0)) ∧
      (0 < (solPollTick true ⟨[2, 1], fun _ => none, 7⟩ 0 ⟨0, 0, none⟩).change →
        (solPollTick true ⟨[2, 1], fun _ => none, 7⟩ 0 ⟨0, 0, none⟩).balance
            = ((7 : Int) : Rat) / 1000000000 ∧
        (solPollTick true ⟨[2, 1], fun _ => none, 7⟩ 0 ⟨0, 0, none⟩).st.SOL_balance
            = ((7 : Int) : Rat) / 1000000000 ∧
        (solPollTick true ⟨[2, 1], fun _ => none, 7⟩ 0
            ⟨0, 0, none⟩).st.SOL_balance_previous
            = ((7 : Int) : Rat) / 1000000000 ∧
        (solPollTick true ⟨[2, 1], fun _ => none, 7⟩ 0 ⟨0, 0, none⟩).balanceQueries
            = 1) ∧
      (¬ 0 < (solPollTick true ⟨[2, 1], fun _ => none, 7⟩ 0 ⟨0, 0, none⟩).change →
        (solPollTick true ⟨[2, 1], fun _ => none, 7⟩ 0 ⟨0, 0, none⟩).change = 0 ∧
        (solPollTick true ⟨[2, 1], fun _ => none, 7⟩ 0 ⟨0, 0, none⟩).balance = 0 ∧
        (solPollTick true ⟨[2, 1], fun _ => none, 7⟩ 0 ⟨0, 0, none⟩).balanceQueries
            = 0) ∧
      txDelta 0 (some ⟨[0], some ⟨[100], [80]⟩⟩) = 0 ∧
      (solPollTick true ⟨[2, 1], fun _ => none, 7⟩ 0
        (solPollTick true ⟨[2, 1], fun _ => none, 7⟩ 0 ⟨0, 0, none⟩).st).change
          = 0) :=
  claim2_scan_mode_poll ⟨[2, 1], fun _ => none, 7⟩ 0 ⟨0, 0, none⟩ 2 [1] rfl

/-- Appending a strictly positive delta buffers its 5-decimal-place value. -/
theorem rawToTextBuffer_pos (now : Nat) (bal change : Rat) (msgs : List Msg)
    (h : 0 < change) :
    rawToTextBuffer now (bal, change) msgs = msgs ++ [⟨now, round5 change⟩] := by
  unfold rawToTextBuffer rawToTextMsg
  rw [if_pos h]

/-- Buffering a sequence of strictly positive deltas collects exactly their
5-decimal-place values, in order. -/
theorem buildBuffer_eq (ds : List (Nat × Rat)) (acc : List Msg)
    (hpos : ∀ p ∈ ds, 0 < p.2) :
    ds.foldl (fun b p => rawToTextBuffer p.1 (0, p.2) b) acc
      = acc ++ ds.map (fun p => ⟨p.1, round5 p.2⟩) := by
  induction ds generalizing acc with
  | nil => simp
  | cons hd tl ih =>
    rw [List.foldl_cons, rawToTextBuffer_pos _ _ _ _ (hpos hd (by simp)),
      ih _ (fun p hp => hpos p (by simp [hp])), List.append_assoc]
    simp

/-- The buffered-value fold in `formatted_latest_buffer` is the list sum. -/
theorem bufferSum_eq (l : List Msg) :
    (l.map Msg.value).foldl (· + ·) 0 = (l.map Msg.value).sum :=
  (List.sum_eq_foldl).symm

/-- Characterisation of consuming a non-empty buffer. -/
theorem formattedLatestBuffer_ne_nil (assetName : Str) (l : List Msg)
    (hl : l ≠ []) :
    formattedLatestBuffer assetName l =
      ([], some ⟨(l.getLast hl).timestamp, round5 ((l.map Msg.value).sum),
        str "You just received " ++ format5 ((l.map Msg.value).sum) ++ str " "
          ++ assetName ++ str "."⟩) := by
  obtain ⟨m0, rest, rfl⟩ := List.exists_cons_of_ne_nil hl
  unfold formattedLatestBuffer
  dsimp only
  rw [bufferSum_eq]

/-- **C4** counterexample: two buffered deltas of `0.000004` each are stored
as `0.00000`, so consumption produces a message whose numeric value is `0`,
while the sum of the deltas to 5 decimal places is `0.00001`. -/
theorem claim4_counterexample :
    (formattedLatestBuffer (str "ETH")
        (rawToTextBuffer 1 (0, 1 / 250000) (rawToTextBuffer 0 (0, 1 / 250000) []))).1
      = [] ∧
    ((formattedLatestBuffer (str "ETH")
        (rawToTextBuffer 1 (0, 1 / 250000)
          (rawToTextBuffer 0 (0, 1 / 250000) []))).2.map BufferOutput.value)
      = some 0 ∧
    round5 (1 / 250000 + 1 / 250000) = 1 / 100000 ∧
    (0 : Rat) ≠ 1 / 100000 := by
  have hq : (0 : Rat) < 1 / 250000 := by norm_num
  have hr : round5 (1 / 250000) = 0 := by
    unfold round5 roundHalfEven
    norm_num
  have hbuf : rawToTextBuffer 1 (0, 1 / 250000) (rawToTextBuffer 0 (0, 1 / 250000) [])
      = [⟨0, round5 (1 / 250000)⟩, ⟨1, round5 (1 / 250000)⟩] := by
    rw [rawToTextBuffer_pos _ _ _ _ hq, rawToTextBuffer_pos _ _ _ _ hq]
    rfl
  rw [hbuf, hr]
  refine ⟨rfl, ?_, ?_, by norm_num⟩
  · show some (round5 ((([⟨0, 0⟩, ⟨1, (0 : Rat)⟩] : List Msg).map Msg.value).foldl
      (· + ·) 0)) = some 0
    have : ((([⟨0, 0⟩, ⟨1, (0 : Rat)⟩] : List Msg).map Msg.value).foldl (· + ·) 0)
        = 0 := by
      simp
    rw [this]
    unfold round5 roundHalfEven
    norm_num
  · unfold round5 roundHalfEven
    have : (1 / 250000 + 1 / 250000 : Rat) * 100000 = 4 / 5 := by norm_num
    rw [this]
    have hfl : ⌊(4 / 5 : Rat)⌋ = 0 := by norm_num
    rw [hfl]
    norm_num

/-- **C4** (corrected): consuming a buffer built from strictly positive
deltas `d1..dn` produces exactly one aggregate message stamped with the last
entry's timestamp and clears the buffer, and consuming an empty buffer yields
no message; the message's numeric value is the 5-decimal-place rounding of
the sum of the *buffered* (already 5-decimal-place-rounded) deltas, which
equals `Σdi` to 5 decimal places whenever every `di` is an exact multiple of
`10^-5` (sub-`10^-5` deltas can make the two differ, as the counterexample
shows). -/
theorem claim4_buffer_aggregation (assetName : Str) (ds : List (Nat × Rat))
    (hpos : ∀ p ∈ ds, 0 < p.2) (hne : ds ≠ []) :
    formattedLatestBuffer assetName ([] : List Msg) = ([], none) ∧
    ∃ out : BufferOutput,
      formattedLatestBuffer assetName
          (ds.foldl (fun b p => rawToTextBuffer p.1 (0, p.2) b) [])
        = ([], some out) ∧
      out.value = round5 ((ds.map fun p => round5 p.2).sum) ∧
      out.timestamp = (ds.getLast hne).1 ∧
      ((∀ p ∈ ds, round5 p.2 = p.2) →
        out.value = round5 ((ds.map Prod.snd).sum)) := by
  refine ⟨rfl, ?_⟩
  rw [buildBuffer_eq ds [] hpos, List.nil_append]
  have hBne : ds.map (fun p => (⟨p.1, round5 p.2⟩ : Msg)) ≠ [] := by
    simpa using hne
  rw [formattedLatestBuffer_ne_nil assetName _ hBne]
  refine ⟨_, rfl, ?_, ?_, ?_⟩
  · rw [List.map_map]
    rfl
  · rw [List.getLast_map]
  · intro hmul
    rw [List.map_map]
    have hmap : (ds.map (Msg.value ∘ fun p => (⟨p.1, round5 p.2⟩ : Msg)))
        = ds.map Prod.snd := by
      apply List.map_congr_left
      intro p hp
      exact hmul p hp
    rw [hmap]

/-- Witness for C4 with the single buffered delta `1` at timestamp `3`. -/
theorem claim4_buffer_aggregation_witness :
    formattedLatestBuffer (str "ETH") ([] : List Msg) = ([], none) ∧
    ∃ out : BufferOutput,
      formattedLatestBuffer (str "ETH")
          (([((3 : Nat), (1 : Rat))]).foldl
            (fun b p => rawToTextBuffer p.1 (0, p.2) b) [])
        = ([], some out) ∧
      out.value = round5 ((([((3 : Nat), (1 : Rat))]).map fun p => round5 p.2).sum) ∧
      out.timestamp = (([((3 : Nat), (1 : Rat))]).getLast (by simp)).1 ∧
      ((∀ p ∈ [((3 : Nat), (1 : Rat))], round5 p.2 = p.2) →
        out.value = round5 ((([((3 : Nat), (1 : Rat))]).map Prod.snd).sum)) :=
  claim4_buffer_aggregation (str "ETH") [((3 : Nat), (1 : Rat))]
    (by
      rintro p hp
      simp only [List.mem_singleton] at hp
      subst hp
      exact one_pos)
    (by simp)

end OM1
